import Mathlib

/-!
# Verification of the `enviark/weather` edge service (`src/main.rs`)

Shallow embedding of the weather view service. The single Rust source file
`src/main.rs` contains the router (`main`), the view builder (`generate_view`)
and the API-key accessor (`get_api_key`). External collaborators that live
outside the source tree (the `weather_helpers` crate, the embedded static
assets, the TinyTemplate renderer, chrono's `Display` machinery for floats)
are taken as abstract parameters, so every theorem below quantifies over them:
the theorems are about the data flow and control flow that `main.rs` itself
fixes.

Modelling conventions:
* Rust `f32` values are modelled as exact rationals `ℚ`; the cast `as i32`
  is modelled by `f32_as_i32` (saturating truncation toward zero, which is
  the semantics of Rust's float-to-int `as` cast for non-NaN inputs).
* A Rust panic (out-of-range `Vec` index, `Option::unwrap` on `None`,
  `panic!`) is modelled by `Option.none`: a computation that would panic
  returns `none`, a computation that completes returns `some` its value.
* The `?` early returns in `main` are modelled by `Except String`.
-/

/-- Struct `WeatherReport` of `main.rs`: one weather condition entry. -/
structure WeatherReport where
  description : String
  icon : String
  deriving DecidableEq, Repr, Inhabited

/-- Struct `Temperatures` of `main.rs`. -/
structure Temperatures where
  day : ℚ
  deriving DecidableEq, Repr, Inhabited

/-- Struct `DailyReport` of `main.rs`: one day of the forecast. -/
structure DailyReport where
  dt : Int
  temp : Temperatures
  weather : List WeatherReport
  deriving DecidableEq, Repr, Inhabited

/-- Struct `CurrentReport` of `main.rs`. -/
structure CurrentReport where
  temp : ℚ
  wind_speed : ℚ
  humidity : ℚ
  weather : List WeatherReport
  deriving DecidableEq, Repr, Inhabited

/-- Struct `MinutelyReport` of `main.rs`. -/
structure MinutelyReport where
  precipitation : ℚ
  deriving DecidableEq, Repr, Inhabited

/-- Struct `APIResponse` of `main.rs`: the decoded upstream payload. -/
structure APIResponse where
  current : CurrentReport
  daily : List DailyReport
  minutely : List MinutelyReport
  deriving DecidableEq, Repr, Inhabited

/-- The fields of `fastly::geo::Geo` that `main.rs` reads. -/
structure Geo where
  latitude : ℚ
  longitude : ℚ
  city : String
  country_name : String
  deriving DecidableEq, Repr, Inhabited

/-- A `chrono::Date<Local>` as `main.rs` consumes it: the calendar fields
used by the `%e %B %Y` format string, plus the weekday name that
`localDate.weekday().to_string()` yields (chrono computes it internally; it is
carried here as data). -/
structure LocalDate where
  year : Nat
  month : Nat
  day : Nat
  weekday : String
  deriving DecidableEq, Repr, Inhabited

/-- Struct `NextDay` of `main.rs`: the per-day view entry. -/
structure NextDay where
  day : String
  temp : String
  icon : String
  deriving DecidableEq, Repr, Inhabited

/-- Struct `TemplateContext` of `main.rs`: the full view model handed to the
template renderer. -/
structure TemplateContext where
  day : String
  day_short : String
  date : String
  city : String
  temp : String
  rain : String
  wind : String
  humidity : String
  description : String
  icon : String
  next_days : List NextDay
  is_metric : Bool
  deriving DecidableEq, Repr, Inhabited

/-- The external collaborators of `main.rs` that live outside the source
tree: the `weather_helpers` crate functions, Rust's `Display` for `f32`
(used by `format!("{}", …)`), and the TinyTemplate rendering of the embedded
`static/index.html` template. They are abstract function parameters; every
theorem quantifies over them. -/
structure Helpers where
  datetime_to_day : String → String
  weekday_full : String → String
  get_feather_weather_icon : String → String
  fmtFloat : ℚ → String
  render : TemplateContext → String

/-- Truncation of a rational toward zero (drop the fractional part):
T-division of the numerator by the (positive) denominator. -/
def ratTrunc (q : ℚ) : Int :=
  q.num.tdiv q.den

/-- Rust's `as i32` cast applied to an `f32` (modelled exactly on `ℚ`):
saturating truncation toward zero. -/
def f32_as_i32 (q : ℚ) : Int :=
  max (-(2 ^ 31)) (min (2 ^ 31 - 1) (ratTrunc q))

/-- `String::replace(pattern, "")` for a one-character pattern, acting on the
character list: each occurrence of `c` is removed, everything else is kept
in order. Embeds `.replace("\x22", "")` of `main.rs` line 215. -/
def removeCharList (c : Char) : List Char → List Char
  | [] => []
  | x :: xs => if x = c then removeCharList c xs else x :: removeCharList c xs

/-- `format!("{}", description).replace("\x22", "")` of `main.rs`. -/
def removeQuotes (s : String) : String :=
  ⟨removeCharList (Char.ofNat 34) s.data⟩

/-- chrono `%e`: day of the month, space-padded to 2 digits. -/
def pad2space (n : Nat) : String :=
  if n < 10 then " " ++ toString n else toString n

/-- chrono `%Y`: the full year, zero-padded to 4 digits. -/
def pad4zero (n : Nat) : String :=
  ⟨List.replicate (4 - (toString n).length) (Char.ofNat 48)⟩ ++ toString n

/-- chrono `%B`: the full English month name (months are 1–12; chrono never
produces anything else for a valid date). -/
def monthName : Nat → String
  | 1 => "January"
  | 2 => "February"
  | 3 => "March"
  | 4 => "April"
  | 5 => "May"
  | 6 => "June"
  | 7 => "July"
  | 8 => "August"
  | 9 => "September"
  | 10 => "October"
  | 11 => "November"
  | 12 => "December"
  | _ => ""

/-- `local.format("%e %B %Y").to_string()` of `main.rs` line 209. -/
def formatDateEBY (d : LocalDate) : String :=
  pad2space d.day ++ " " ++ monthName d.month ++ " " ++ pad4zero d.year

/-- One iteration of the `for i in 0..3` loop body of `generate_view`
(`main.rs` lines 196–202), given the already-indexed `daily[i + 1]` entry:
reads `dt`, casts `temp.day as i32`, and indexes `weather[0]` (a panic,
modelled as `none`, when the weather list is empty). -/
def mkNextDay (h : Helpers) (d : DailyReport) : Option NextDay :=
  match d.weather with
  | [] => none
  | w :: _ =>
      some { day := h.datetime_to_day (toString d.dt)
             temp := toString (f32_as_i32 d.temp.day)
             icon := h.get_feather_weather_icon w.icon }

/-- Iteration `i` of the `for i in 0..3` loop of `generate_view`: index
`daily[i + 1]` (panic, modelled as `none`, when out of range) and build the
`NextDay` entry. -/
def nextDayAt (h : Helpers) (daily : List DailyReport) (i : Nat) : Option NextDay := do
  let d ← daily[i + 1]?
  mkNextDay h d

/-- The `for i in 0..3` loop of `generate_view` (`main.rs` lines 194–203),
unrolled over its constant bound: the pushed entries in order are those of
iterations `i = 0, 1, 2`. -/
def buildNextDays (h : Helpers) (daily : List DailyReport) : Option (List NextDay) := do
  let n0 ← nextDayAt h daily 0
  let n1 ← nextDayAt h daily 1
  let n2 ← nextDayAt h daily 2
  pure [n0, n1, n2]

/-- The context-building part of `generate_view` (`main.rs` lines 194–219):
builds `next_days`, then fills the `TemplateContext` field by field exactly
as the source does. Indexing `minutely[0]` or `current.weather[0]` on an
empty list is a panic, modelled as `none`. -/
def generate_context (h : Helpers) (api_response : APIResponse) (location : Geo)
    (localDate : LocalDate) (units : String) : Option TemplateContext := do
  let next_days ← buildNextDays h api_response.daily
  let m0 ← api_response.minutely[0]?
  let w0 ← api_response.current.weather[0]?
  pure { day := h.weekday_full localDate.weekday
         day_short := localDate.weekday
         date := formatDateEBY localDate
         city := location.city
         temp := toString (f32_as_i32 api_response.current.temp)
         rain := h.fmtFloat m0.precipitation
         wind := h.fmtFloat api_response.current.wind_speed
         humidity := h.fmtFloat api_response.current.humidity
         description := removeQuotes w0.description
         icon := h.get_feather_weather_icon w0.icon
         next_days := next_days
         is_metric := units == "metric" }

/-- `generate_view` of `main.rs` (lines 181–222): build the context and
render it through the (abstract) TinyTemplate template. `none` models a
panic inside the builder. -/
def generate_view (h : Helpers) (api_response : APIResponse) (location : Geo)
    (localDate : LocalDate) (units : String) : Option String :=
  (generate_context h api_response location localDate units).map h.render

/-- Struct `QueryParams` of `main.rs`: the deserialized query string. -/
structure QueryParams where
  units : Option String
  deriving DecidableEq, Repr, Inhabited

/-- The units defaulting of `main.rs` lines 53–56: take the `units` query
parameter, or `"metric"` when absent. -/
def resolve_units (q : Option String) : String :=
  match q with
  | some units => units
  | none => "metric"

/-- `get_api_key` of `main.rs` lines 224–229. The Fastly dictionary
`weather_auth` is an abstract lookup function; when the `"key"` entry is
absent the source executes `panic!("No OpenWeatherMap API key!")`, modelled
as `none`. -/
def get_api_key (weather_auth : String → Option String) : Option String :=
  match weather_auth "key" with
  | some key => some key
  | none => none

/-- The upstream URL built by the `format!` of `main.rs` lines 59–65; the
latitude and longitude are printed with Rust float `Display`. -/
def build_url (h : Helpers) (location : Geo) (appid units : String) : String :=
  "http://api.openweathermap.org/data/2.5/onecall?lat=" ++ h.fmtFloat location.latitude
    ++ "&lon=" ++ h.fmtFloat location.longitude
    ++ "&appid=" ++ appid
    ++ "&units=" ++ units

/-- An HTTP response as `main.rs` constructs them: status code, optional
explicit content type (Fastly `with_content_type`), and a body. Bodies that
are embedded binary assets are modelled by their byte list rendered as a
`String` parameter; the claims only compare bodies for equality. -/
structure Resp where
  status : Nat
  contentType : Option String
  body : String
  deriving DecidableEq, Repr, Inhabited

/-- The embedded static assets (`include_str!`/`include_bytes!` of
`main.rs`): their contents are not part of the source tree, so they are
abstract parameters; the router returns them verbatim. -/
structure Assets where
  css : String
  js : String

/-- The handler for `GET /` (`main.rs` lines 33–81), with every external
effect abstracted into a parameter:
* `geo_result` — the value of `geo_lookup(client_ip)`; the source calls
  `.unwrap()` on it, a panic (modelled `none`) when the lookup fails;
* `query_result` — the outcome of `req.get_query::<QueryParams>()`; the `?`
  operator propagates a deserialization error out of the handler;
* `weather_auth` — the Fastly dictionary behind `get_api_key`;
* `fetch` — sending the backend request for a given URL and decoding the
  JSON body (`bereq.send(BACKEND_NAME)?` + `take_body_json::<APIResponse>()?`).
The outer `Option` models a panic aborting the request; the inner `Except`
models the `?` early error returns of `main`. The source's order is kept:
location unwrap, then query parsing, then URL construction (which reads the
API key), then the fetch, then `generate_view`. -/
def handleRoot (h : Helpers) (geo_result : Option Geo)
    (query_result : Except String QueryParams)
    (weather_auth : String → Option String)
    (fetch : String → Except String APIResponse)
    (localDate : LocalDate) : Option (Except String Resp) :=
  match geo_result with
  | none => none
  | some location =>
    match query_result with
    | Except.error e => some (Except.error e)
    | Except.ok query =>
      let units := resolve_units query.units
      match get_api_key weather_auth with
      | none => none
      | some key =>
        let url := build_url h location key units
        match fetch url with
        | Except.error e => some (Except.error e)
        | Except.ok api_response =>
          match generate_view h api_response location localDate units with
          | none => none
          | some body =>
              some (Except.ok { status := 200
                                contentType := some "text/html; charset=utf-8"
                                body := body })

/-- The dispatch of `main` (`main.rs` lines 25–110) as a function of method
and path, with the two effectful branches (`/` and `/bg-image.jpg`) taken as
already-computed response parameters so that the theorems can show the
405 path consults neither. The method check precedes the path match, exactly
as in the source; the string `match` is an equality chain, as Rust compiles
a `match` on `&str`. `main.rs` sets no explicit status on the static-file
branches (Fastly's default is 200 OK) and no explicit content type on the
405/404 plain-text branches. -/
def mainRoute (assets : Assets) (rootResp bgResp : Resp)
    (method path : String) : Resp :=
  if method ≠ "GET" then
    { status := 405, contentType := none, body := "This method is not allowed" }
  else if path = "/" then rootResp
  else if path = "/bg-image.jpg" then bgResp
  else if path = "/style.css" then
    { status := 200, contentType := some "text/css", body := assets.css }
  else if path = "/feather.min.js" then
    { status := 200, contentType := some "text/javascript", body := assets.js }
  else
    { status := 404, contentType := none,
      body := "The page you requested could not be found" }

/-! ### Concrete sample inputs (used to instantiate theorems) -/

/-- A concrete instantiation of the abstract external collaborators. -/
def exHelpers : Helpers :=
  { datetime_to_day := fun s => s
    weekday_full := fun s => s
    get_feather_weather_icon := fun s => s
    fmtFloat := fun q => toString q.num ++ "/" ++ toString q.den
    render := fun c => c.city ++ c.temp ++ c.date }

/-- A concrete resolved location. -/
def exGeo : Geo :=
  { latitude := mkRat 103 2, longitude := mkRat (-1) 10, city := "London", country_name := "UK" }

/-- 3 June 2024, a Monday. -/
def exDate : LocalDate :=
  { year := 2024, month := 6, day := 3, weekday := "Mon" }

/-- A daily forecast entry with one weather condition. -/
def exDay (n : Int) (q : ℚ) : DailyReport :=
  { dt := n, temp := { day := q }, weather := [{ description := "cloudy", icon := "04d" }] }

/-- A well-formed upstream payload: 4 daily entries, 1 minutely entry,
non-empty weather lists; the current description embeds a double quote and
the current temperature is 15.9. -/
def exSnap : APIResponse :=
  { current := { temp := mkRat 159 10, wind_speed := mkRat 11 2, humidity := 80,
                 weather := [{ description := "light rain\"", icon := "10d" }] }
    daily := [exDay 1000 10, exDay 2000 (mkRat 23 2), exDay 3000 (mkRat (-16) 5),
              exDay 4000 (mkRat 209 10)]
    minutely := [{ precipitation := mkRat 1 2 }] }

/-- A payload violating the `daily`-length invariant: only 3 entries. -/
def exSnapShortDaily : APIResponse :=
  { exSnap with daily := [exDay 1000 10, exDay 2000 (mkRat 23 2), exDay 3000 (mkRat (-16) 5)] }

/-- A payload violating the `minutely` invariant: empty sequence. -/
def exSnapNoMinutely : APIResponse :=
  { exSnap with minutely := [] }

/-- A payload violating the weather-condition invariant: empty
`current.weather` list. -/
def exSnapNoWeather : APIResponse :=
  { exSnap with current := { temp := mkRat 159 10, wind_speed := mkRat 11 2,
                             humidity := 80, weather := [] } }

/-- Concrete embedded assets for instantiating the router. -/
def exAssets : Assets :=
  { css := "body \x7b color: black; \x7d", js := "feather.replace();" }

/-- A stand-in response for the effectful `/` branch. -/
def exRootResp : Resp :=
  { status := 200, contentType := some "text/html; charset=utf-8", body := "page" }

/-- A stand-in response for the effectful `/bg-image.jpg` branch. -/
def exBgResp : Resp :=
  { status := 200, contentType := some "image/jpeg", body := "jpeg-bytes" }

/-- The context the builder produces on the sample payload for a given units
token (defaulted when the builder would panic; on `exSnap` it never does). -/
def exCtxOf (u : String) : TemplateContext :=
  (generate_context exHelpers exSnap exGeo exDate u).getD default

/-! ### Helper lemmas -/

/-- A list of length at least 4 splits into four explicit heads. -/
theorem exists_four_cons {α : Type} {l : List α} (hl : 4 ≤ l.length) :
    ∃ a b c d t, l = a :: b :: c :: d :: t := by
  rcases l with _ | ⟨a, l⟩
  · simp at hl
  rcases l with _ | ⟨b, l⟩
  · simp at hl
  rcases l with _ | ⟨c, l⟩
  · simp at hl
  rcases l with _ | ⟨d, l⟩
  · simp at hl
  exact ⟨a, b, c, d, l, rfl⟩

/-- Explicit value of `generate_context` on a payload destructured far enough
for every index access to succeed. -/
theorem generate_context_eq (h : Helpers) (loc : Geo) (dt : LocalDate) (u : String)
    (cur : CurrentReport) (a b c d : DailyReport) (t : List DailyReport)
    (m0 : MinutelyReport) (ms : List MinutelyReport)
    (w0 : WeatherReport) (cws : List WeatherReport)
    (x1 x2 x3 : WeatherReport) (l1 l2 l3 : List WeatherReport)
    (hcw : cur.weather = w0 :: cws)
    (hb : b.weather = x1 :: l1) (hc : c.weather = x2 :: l2) (hd : d.weather = x3 :: l3) :
    generate_context h ⟨cur, a :: b :: c :: d :: t, m0 :: ms⟩ loc dt u =
      some { day := h.weekday_full dt.weekday
             day_short := dt.weekday
             date := formatDateEBY dt
             city := loc.city
             temp := toString (f32_as_i32 cur.temp)
             rain := h.fmtFloat m0.precipitation
             wind := h.fmtFloat cur.wind_speed
             humidity := h.fmtFloat cur.humidity
             description := removeQuotes w0.description
             icon := h.get_feather_weather_icon w0.icon
             next_days :=
               [{ day := h.datetime_to_day (toString b.dt)
                  temp := toString (f32_as_i32 b.temp.day)
                  icon := h.get_feather_weather_icon x1.icon },
                { day := h.datetime_to_day (toString c.dt)
                  temp := toString (f32_as_i32 c.temp.day)
                  icon := h.get_feather_weather_icon x2.icon },
                { day := h.datetime_to_day (toString d.dt)
                  temp := toString (f32_as_i32 d.temp.day)
                  icon := h.get_feather_weather_icon x3.icon }]
             is_metric := u == "metric" } := by
  simp [generate_context, buildNextDays, nextDayAt, mkNextDay, hcw, hb, hc, hd]

/-- The next-days loop hits an out-of-range index (a panic) whenever `daily`
has fewer than 4 entries. -/
theorem buildNextDays_eq_none (h : Helpers) (daily : List DailyReport)
    (hlen : daily.length < 4) : buildNextDays h daily = none := by
  have h3 : daily[3]? = none := by
    rw [List.getElem?_eq_none_iff]
    omega
  have h2 : nextDayAt h daily 2 = none := by
    unfold nextDayAt
    rw [show (2 + 1 : Nat) = 3 from rfl, h3]
    rfl
  unfold buildNextDays
  cases e0 : nextDayAt h daily 0 <;> cases e1 : nextDayAt h daily 1 <;>
    simp [e0, e1, h2]

/-- Empty `minutely` makes the builder panic (`minutely[0]`). -/
theorem generate_context_none_of_minutely_nil (h : Helpers) (r : APIResponse)
    (loc : Geo) (dt : LocalDate) (u : String) (hm : r.minutely = []) :
    generate_context h r loc dt u = none := by
  unfold generate_context
  cases e : buildNextDays h r.daily <;> simp [e, hm]

/-- Empty `current.weather` makes the builder panic (`weather[0]`). -/
theorem generate_context_none_of_weather_nil (h : Helpers) (r : APIResponse)
    (loc : Geo) (dt : LocalDate) (u : String) (hw : r.current.weather = []) :
    generate_context h r loc dt u = none := by
  unfold generate_context
  cases e : buildNextDays h r.daily <;> cases m : r.minutely[0]? <;>
    simp [e, m, hw]

/-- Inversion: a successful loop iteration exposes the indexed daily entry
and the head of its weather list. -/
theorem nextDayAt_some_inv (h : Helpers) (daily : List DailyReport) (i : Nat)
    (nd : NextDay) (hnd : nextDayAt h daily i = some nd) :
    ∃ d w ws, daily[i + 1]? = some d ∧ d.weather = w :: ws ∧
      nd = { day := h.datetime_to_day (toString d.dt)
             temp := toString (f32_as_i32 d.temp.day)
             icon := h.get_feather_weather_icon w.icon } := by
  unfold nextDayAt at hnd
  cases e : daily[i + 1]? <;> rw [e] at hnd
  · simp at hnd
  case some d =>
    have hnd1 : mkNextDay h d = some nd := hnd
    unfold mkNextDay at hnd1
    cases hw : d.weather <;> rw [hw] at hnd1
    · simp at hnd1
    case cons w ws =>
      simp at hnd1
      exact ⟨d, w, ws, rfl, hw, hnd1.symm⟩

/-- Inversion: a successful `buildNextDays` is the list of the three
successful iterations, in order. -/
theorem buildNextDays_some_inv (h : Helpers) (daily : List DailyReport)
    (l : List NextDay) (hl : buildNextDays h daily = some l) :
    ∃ n0 n1 n2, nextDayAt h daily 0 = some n0 ∧ nextDayAt h daily 1 = some n1 ∧
      nextDayAt h daily 2 = some n2 ∧ l = [n0, n1, n2] := by
  unfold buildNextDays at hl
  cases e0 : nextDayAt h daily 0 <;> rw [e0] at hl
  · simp at hl
  case some n0 =>
    have hl1 : (nextDayAt h daily 1 >>= fun n1 =>
        nextDayAt h daily 2 >>= fun n2 => pure [n0, n1, n2]) = some l := hl
    cases e1 : nextDayAt h daily 1 <;> rw [e1] at hl1
    · simp at hl1
    case some n1 =>
      have hl2 : (nextDayAt h daily 2 >>= fun n2 => pure [n0, n1, n2]) = some l := hl1
      cases e2 : nextDayAt h daily 2 <;> rw [e2] at hl2
      · simp at hl2
      case some n2 =>
        have hl3 : some [n0, n1, n2] = some l := hl2
        exact ⟨n0, n1, n2, rfl, rfl, rfl, (Option.some.inj hl3).symm⟩

/-- Inversion: a successfully built context is exactly the record the source
fills in, with the three index accesses exposed. -/
theorem generate_context_some_inv (h : Helpers) (r : APIResponse) (loc : Geo)
    (dt : LocalDate) (u : String) (ctx : TemplateContext)
    (hctx : generate_context h r loc dt u = some ctx) :
    ∃ nds m0 w0, buildNextDays h r.daily = some nds ∧ r.minutely[0]? = some m0 ∧
      r.current.weather[0]? = some w0 ∧
      ctx = { day := h.weekday_full dt.weekday
              day_short := dt.weekday
              date := formatDateEBY dt
              city := loc.city
              temp := toString (f32_as_i32 r.current.temp)
              rain := h.fmtFloat m0.precipitation
              wind := h.fmtFloat r.current.wind_speed
              humidity := h.fmtFloat r.current.humidity
              description := removeQuotes w0.description
              icon := h.get_feather_weather_icon w0.icon
              next_days := nds
              is_metric := u == "metric" } := by
  unfold generate_context at hctx
  cases e : buildNextDays h r.daily <;> rw [e] at hctx
  · simp at hctx
  case some nds =>
    have h1 : (r.minutely[0]? >>= fun m0 => r.current.weather[0]? >>= fun w0 =>
        pure { day := h.weekday_full dt.weekday
               day_short := dt.weekday
               date := formatDateEBY dt
               city := loc.city
               temp := toString (f32_as_i32 r.current.temp)
               rain := h.fmtFloat m0.precipitation
               wind := h.fmtFloat r.current.wind_speed
               humidity := h.fmtFloat r.current.humidity
               description := removeQuotes w0.description
               icon := h.get_feather_weather_icon w0.icon
               next_days := nds
               is_metric := u == "metric" }) = some ctx := hctx
    cases m : r.minutely[0]? <;> rw [m] at h1
    · simp at h1
    case some m0 =>
      have h2 : (r.current.weather[0]? >>= fun w0 =>
          pure { day := h.weekday_full dt.weekday
                 day_short := dt.weekday
                 date := formatDateEBY dt
                 city := loc.city
                 temp := toString (f32_as_i32 r.current.temp)
                 rain := h.fmtFloat m0.precipitation
                 wind := h.fmtFloat r.current.wind_speed
                 humidity := h.fmtFloat r.current.humidity
                 description := removeQuotes w0.description
                 icon := h.get_feather_weather_icon w0.icon
                 next_days := nds
                 is_metric := u == "metric" }) = some ctx := h1
      cases w : r.current.weather[0]? <;> rw [w] at h2
      · simp at h2
      case some w0 =>
        have h3 : some { day := h.weekday_full dt.weekday
                         day_short := dt.weekday
                         date := formatDateEBY dt
                         city := loc.city
                         temp := toString (f32_as_i32 r.current.temp)
                         rain := h.fmtFloat m0.precipitation
                         wind := h.fmtFloat r.current.wind_speed
                         humidity := h.fmtFloat r.current.humidity
                         description := removeQuotes w0.description
                         icon := h.get_feather_weather_icon w0.icon
                         next_days := nds
                         is_metric := u == "metric" } = some ctx := h2
        exact ⟨nds, m0, w0, rfl, rfl, rfl, (Option.some.inj h3).symm⟩

/-! ### Claim theorems -/

/-- **C1.** The claim states that a decoded payload violating the data-model
invariants (fewer than 4 `daily` entries, empty `minutely`, or an empty
weather-condition list) makes the view build fail with a `DataContractError`
surfaced as HTTP 500, with no out-of-range index access and no panic. The
code does the opposite: on each such payload `generate_view` performs an
out-of-range `Vec` index and panics (modelled as `none`); no
`DataContractError` type exists in the source. This theorem evaluates the
code on the three violating payload classes: each one panics. -/
theorem c1_contract_violation_panics :
    (∀ (h : Helpers) (r : APIResponse) (loc : Geo) (dt : LocalDate) (u : String),
        r.daily.length < 4 → generate_view h r loc dt u = none) ∧
    (∀ (h : Helpers) (r : APIResponse) (loc : Geo) (dt : LocalDate) (u : String),
        r.minutely = [] → generate_view h r loc dt u = none) ∧
    (∀ (h : Helpers) (r : APIResponse) (loc : Geo) (dt : LocalDate) (u : String),
        r.current.weather = [] → generate_view h r loc dt u = none) := by
  refine ⟨?_, ?_, ?_⟩
  · intro h r loc dt u hx
    unfold generate_view
    have hc : generate_context h r loc dt u = none := by
      unfold generate_context
      rw [buildNextDays_eq_none h r.daily hx]
      rfl
    rw [hc]
    rfl
  · intro h r loc dt u hx
    unfold generate_view
    rw [generate_context_none_of_minutely_nil h r loc dt u hx]
    rfl
  · intro h r loc dt u hx
    unfold generate_view
    rw [generate_context_none_of_weather_nil h r loc dt u hx]
    rfl

/-- Witness for C1: the three violating sample payloads make the builder
panic (`none`). -/
theorem c1_contract_violation_panics_witness :
    (exSnapShortDaily.daily.length < 4 ∧
      generate_view exHelpers exSnapShortDaily exGeo exDate "metric" = none) ∧
    (exSnapNoMinutely.minutely = [] ∧
      generate_view exHelpers exSnapNoMinutely exGeo exDate "metric" = none) ∧
    (exSnapNoWeather.current.weather = [] ∧
      generate_view exHelpers exSnapNoWeather exGeo exDate "metric" = none) :=
  ⟨⟨by decide,
    c1_contract_violation_panics.1 exHelpers exSnapShortDaily exGeo exDate "metric" (by decide)⟩,
   ⟨by decide,
    c1_contract_violation_panics.2.1 exHelpers exSnapNoMinutely exGeo exDate "metric" (by decide)⟩,
   ⟨by decide,
    c1_contract_violation_panics.2.2 exHelpers exSnapNoWeather exGeo exDate "metric" (by decide)⟩⟩

/-- **C3.** The claim states that a failed or empty location lookup is
surfaced as a 502-class error response and a missing API key as a 500
response, neither aborting the process. The code does the opposite: a
failed `geo_lookup` is hit with `.unwrap()` (a panic) and a missing
dictionary key hits `panic!("No OpenWeatherMap API key!")`; both abort
the request handler (modelled as `none`) instead of producing any
response. -/
theorem c3_missing_location_or_key_panics :
    (∀ (h : Helpers) (q : Except String QueryParams) (auth : String → Option String)
        (fetch : String → Except String APIResponse) (dt : LocalDate),
        handleRoot h none q auth fetch dt = none) ∧
    (∀ (h : Helpers) (loc : Geo) (q : QueryParams) (auth : String → Option String)
        (fetch : String → Except String APIResponse) (dt : LocalDate),
        auth "key" = none →
        handleRoot h (some loc) (Except.ok q) auth fetch dt = none) := by
  constructor
  · intro h q auth fetch dt
    rfl
  · intro h loc q auth fetch dt ha
    simp [handleRoot, get_api_key, ha]

/-- Witness for C3: a concrete request with no resolvable location panics,
and a concrete request whose key dictionary is empty panics. -/
theorem c3_missing_location_or_key_panics_witness :
    handleRoot exHelpers none (Except.ok { units := none }) (fun _ => some "KEY")
      (fun _ => Except.ok exSnap) exDate = none ∧
    ((fun _ : String => (none : Option String)) "key" = none ∧
      handleRoot exHelpers (some exGeo) (Except.ok { units := none })
        (fun _ => none) (fun _ => Except.ok exSnap) exDate = none) :=
  ⟨c3_missing_location_or_key_panics.1 exHelpers (Except.ok { units := none })
      (fun _ => some "KEY") (fun _ => Except.ok exSnap) exDate,
   rfl,
   c3_missing_location_or_key_panics.2 exHelpers exGeo { units := none }
      (fun _ => none) (fun _ => Except.ok exSnap) exDate rfl⟩

/-- **C9.** The view builder is deterministic: with the external
collaborators fixed, two calls on equal payload, location, date and units
yield identical output. -/
theorem c9_generate_view_deterministic (h : Helpers) (r₁ r₂ : APIResponse)
    (loc₁ loc₂ : Geo) (dt₁ dt₂ : LocalDate) (u₁ u₂ : String)
    (hr : r₁ = r₂) (hloc : loc₁ = loc₂) (hdt : dt₁ = dt₂) (hu : u₁ = u₂) :
    generate_view h r₁ loc₁ dt₁ u₁ = generate_view h r₂ loc₂ dt₂ u₂ := by
  subst hr hloc hdt hu
  rfl

/-- Witness for C9 at a concrete input. -/
theorem c9_generate_view_deterministic_witness :
    generate_view exHelpers exSnap exGeo exDate "metric" =
      generate_view exHelpers exSnap exGeo exDate "metric" :=
  c9_generate_view_deterministic exHelpers exSnap exSnap exGeo exGeo exDate exDate
    "metric" "metric" rfl rfl rfl rfl

/-- **C10.** On `GET /`, a query string that fails to deserialize makes the
handler return that error immediately: the result is the error itself (no
rendered page), and it is independent of the API-key dictionary and of the
upstream fetch — the upstream request is neither constructed nor sent. -/
theorem c10_query_error_short_circuits (h : Helpers) (loc : Geo) (e : String)
    (auth auth' : String → Option String)
    (fetch fetch' : String → Except String APIResponse) (dt : LocalDate) :
    handleRoot h (some loc) (Except.error e) auth fetch dt =
      some (Except.error e) ∧
    handleRoot h (some loc) (Except.error e) auth fetch dt =
      handleRoot h (some loc) (Except.error e) auth' fetch' dt :=
  ⟨rfl, rfl⟩

/-- **C2.** For a payload with at least 4 `daily` entries, at least one
`minutely` entry, and (data-model invariant §3) non-empty weather lists, the
builder succeeds and `next_days` has exactly 3 entries; entry `i` is derived
from `daily[i + 1]` (today at index 0 is skipped): weekday name from that
entry's timestamp, its day temperature as an integer string, and the mapped
icon of its first weather condition. -/
theorem c2_next_days_from_daily (h : Helpers) (r : APIResponse) (loc : Geo)
    (dt : LocalDate) (u : String)
    (hlen : 4 ≤ r.daily.length) (hmin : r.minutely ≠ [])
    (hcur : r.current.weather ≠ [])
    (hdw : ∀ d ∈ r.daily, d.weather ≠ []) :
    ∃ ctx, generate_context h r loc dt u = some ctx ∧
      ctx.next_days.length = 3 ∧
      ∀ i, i < 3 → ∃ d w, r.daily[i + 1]? = some d ∧ d.weather[0]? = some w ∧
        ctx.next_days[i]? =
          some { day := h.datetime_to_day (toString d.dt)
                 temp := toString (f32_as_i32 d.temp.day)
                 icon := h.get_feather_weather_icon w.icon } := by
  obtain ⟨cur, daily, minutely⟩ := r
  obtain ⟨a, b, c, d, t, hdaily⟩ := exists_four_cons hlen
  subst hdaily
  rcases minutely with _ | ⟨m0, ms⟩
  · exact absurd rfl hmin
  rcases hw : cur.weather with _ | ⟨w0, cws⟩
  · exact absurd hw hcur
  have hb : b.weather ≠ [] := hdw b (by simp)
  have hc : c.weather ≠ [] := hdw c (by simp)
  have hd : d.weather ≠ [] := hdw d (by simp)
  rcases hbw : b.weather with _ | ⟨x1, l1⟩
  · exact absurd hbw hb
  rcases hcw : c.weather with _ | ⟨x2, l2⟩
  · exact absurd hcw hc
  rcases hdw2 : d.weather with _ | ⟨x3, l3⟩
  · exact absurd hdw2 hd
  rw [generate_context_eq h loc dt u cur a b c d t m0 ms w0 cws x1 x2 x3 l1 l2 l3
    hw hbw hcw hdw2]
  refine ⟨_, rfl, by simp, ?_⟩
  intro i hi
  interval_cases i
  · exact ⟨b, x1, by simp, by simp [hbw], by simp⟩
  · exact ⟨c, x2, by simp, by simp [hcw], by simp⟩
  · exact ⟨d, x3, by simp, by simp [hdw2], by simp⟩

/-- Witness for C2 on the sample payload. -/
theorem c2_next_days_from_daily_witness :
    (4 ≤ exSnap.daily.length ∧ exSnap.minutely ≠ [] ∧ exSnap.current.weather ≠ [] ∧
      (∀ d ∈ exSnap.daily, d.weather ≠ [])) ∧
    (∃ ctx, generate_context exHelpers exSnap exGeo exDate "metric" = some ctx ∧
      ctx.next_days.length = 3 ∧
      ∀ i, i < 3 → ∃ d w, exSnap.daily[i + 1]? = some d ∧ d.weather[0]? = some w ∧
        ctx.next_days[i]? =
          some { day := exHelpers.datetime_to_day (toString d.dt)
                 temp := toString (f32_as_i32 d.temp.day)
                 icon := exHelpers.get_feather_weather_icon w.icon }) :=
  ⟨⟨by decide, by decide, by decide, by decide⟩,
   c2_next_days_from_daily exHelpers exSnap exGeo exDate "metric"
     (by decide) (by decide) (by decide) (by decide)⟩

/-- `removeCharList` removes exactly the occurrences of `c` and keeps every
other character unchanged, in order. -/
theorem removeCharList_eq_filter (c : Char) (l : List Char) :
    removeCharList c l = l.filter (fun x => x != c) := by
  induction l with
  | nil => rfl
  | cons x xs ih =>
    by_cases hx : x = c <;> simp [removeCharList, hx, ih]

/-- Any successfully built context stores `units == "metric"` in its
`is_metric` field. -/
theorem generate_context_is_metric (h : Helpers) (r : APIResponse) (loc : Geo)
    (dt : LocalDate) (u : String) (ctx : TemplateContext)
    (hctx : generate_context h r loc dt u = some ctx) :
    ctx.is_metric = (u == "metric") := by
  obtain ⟨nds, m0, w0, _, _, _, hc⟩ := generate_context_some_inv h r loc dt u ctx hctx
  rw [hc]

/-- Any successfully built context stores the truncated current temperature
in its `temp` field. -/
theorem generate_context_temp (h : Helpers) (r : APIResponse) (loc : Geo)
    (dt : LocalDate) (u : String) (ctx : TemplateContext)
    (hctx : generate_context h r loc dt u = some ctx) :
    ctx.temp = toString (f32_as_i32 r.current.temp) := by
  obtain ⟨nds, m0, w0, _, _, _, hc⟩ := generate_context_some_inv h r loc dt u ctx hctx
  rw [hc]

/-- Any successfully built context stores the `%e %B %Y`-formatted local
date in its `date` field. -/
theorem generate_context_date (h : Helpers) (r : APIResponse) (loc : Geo)
    (dt : LocalDate) (u : String) (ctx : TemplateContext)
    (hctx : generate_context h r loc dt u = some ctx) :
    ctx.date = formatDateEBY dt := by
  obtain ⟨nds, m0, w0, _, _, _, hc⟩ := generate_context_some_inv h r loc dt u ctx hctx
  rw [hc]

/-- Any successfully built context stores the quote-stripped description of
the first current weather condition in its `description` field. -/
theorem generate_context_description (h : Helpers) (r : APIResponse) (loc : Geo)
    (dt : LocalDate) (u : String) (ctx : TemplateContext) (w0 : WeatherReport)
    (hctx : generate_context h r loc dt u = some ctx)
    (hw : r.current.weather[0]? = some w0) :
    ctx.description = removeQuotes w0.description := by
  obtain ⟨nds, m0, w0', _, _, hw', hc⟩ := generate_context_some_inv h r loc dt u ctx hctx
  rw [hw] at hw'
  obtain rfl : w0 = w0' := Option.some.inj hw'
  rw [hc]

/-- **C4 counterexample.** The claim's final clause says every *supplied*
units value other than the two discussed cases yields `is_metric = false`;
but the supplied value `"metric"` is forwarded and yields
`is_metric = true`. -/
theorem c4_counterexample_metric_supplied :
    resolve_units (some "metric") = "metric" ∧
    Option.map TemplateContext.is_metric
      (generate_context exHelpers exSnap exGeo exDate (resolve_units (some "metric"))) =
      some true :=
  ⟨rfl, by decide⟩

/-- **C4 (amended).** With no `units` query parameter the token is
`"metric"` and any built context has `is_metric = true`; a supplied
`"imperial"` gives `is_metric = false`; any supplied value other than the
exact string `"metric"` gives `is_metric = false`; and every supplied value
(including `"metric"`) is placed verbatim as the final `units=` parameter of
the upstream URL, which is a units-independent prefix followed by exactly
that string. -/
theorem c4_units_resolution :
    (resolve_units none = "metric") ∧
    (∀ (h : Helpers) (r : APIResponse) (loc : Geo) (dt : LocalDate)
        (ctx : TemplateContext),
        generate_context h r loc dt (resolve_units none) = some ctx →
        ctx.is_metric = true) ∧
    (∀ (h : Helpers) (r : APIResponse) (loc : Geo) (dt : LocalDate)
        (ctx : TemplateContext),
        generate_context h r loc dt (resolve_units (some "imperial")) = some ctx →
        ctx.is_metric = false) ∧
    (∀ v : String, v ≠ "metric" →
        ∀ (h : Helpers) (r : APIResponse) (loc : Geo) (dt : LocalDate)
          (ctx : TemplateContext),
          generate_context h r loc dt (resolve_units (some v)) = some ctx →
          ctx.is_metric = false) ∧
    (∀ (h : Helpers) (loc : Geo) (key v : String),
        build_url h loc key (resolve_units (some v)) =
          ("http://api.openweathermap.org/data/2.5/onecall?lat="
            ++ h.fmtFloat loc.latitude ++ "&lon=" ++ h.fmtFloat loc.longitude
            ++ "&appid=" ++ key ++ "&units=") ++ v) := by
  refine ⟨rfl, ?_, ?_, ?_, ?_⟩
  · intro h r loc dt ctx hctx
    rw [generate_context_is_metric h r loc dt _ ctx hctx]
    decide
  · intro h r loc dt ctx hctx
    rw [generate_context_is_metric h r loc dt _ ctx hctx]
    decide
  · intro v hv h r loc dt ctx hctx
    rw [generate_context_is_metric h r loc dt _ ctx hctx]
    simp [resolve_units]
    exact hv
  · intro h loc key v
    rfl

/-- Witness for C4 (amended) at concrete tokens. -/
theorem c4_units_resolution_witness :
    (generate_context exHelpers exSnap exGeo exDate (resolve_units none) =
        some (exCtxOf "metric") ∧ (exCtxOf "metric").is_metric = true) ∧
    (generate_context exHelpers exSnap exGeo exDate (resolve_units (some "imperial")) =
        some (exCtxOf "imperial") ∧ (exCtxOf "imperial").is_metric = false) ∧
    (("bogus" : String) ≠ "metric" ∧
      generate_context exHelpers exSnap exGeo exDate (resolve_units (some "bogus")) =
        some (exCtxOf "bogus") ∧ (exCtxOf "bogus").is_metric = false) ∧
    build_url exHelpers exGeo "KEY" (resolve_units (some "bogus")) =
      ("http://api.openweathermap.org/data/2.5/onecall?lat="
        ++ exHelpers.fmtFloat exGeo.latitude ++ "&lon=" ++ exHelpers.fmtFloat exGeo.longitude
        ++ "&appid=" ++ "KEY" ++ "&units=") ++ "bogus" :=
  ⟨⟨by decide,
    c4_units_resolution.2.1 exHelpers exSnap exGeo exDate (exCtxOf "metric") (by decide)⟩,
   ⟨by decide,
    c4_units_resolution.2.2.1 exHelpers exSnap exGeo exDate (exCtxOf "imperial") (by decide)⟩,
   ⟨by decide, by decide,
    c4_units_resolution.2.2.2.1 "bogus" (by decide) exHelpers exSnap exGeo exDate
      (exCtxOf "bogus") (by decide)⟩,
   c4_units_resolution.2.2.2.2 exHelpers exGeo "KEY" "bogus"⟩

/-- **C5.** The router: a non-GET method on any path yields the 405
plain-text response before any other processing (the result is a constant,
independent of the path and of both effectful branches); a GET on a path
other than the four routed ones yields the 404 plain-text response; and
`GET /style.css` yields status 200, content type `text/css`, with the
embedded CSS verbatim. -/
theorem c5_router_dispatch :
    (∀ (assets : Assets) (rootResp bgResp : Resp) (m p : String), m ≠ "GET" →
        mainRoute assets rootResp bgResp m p =
          { status := 405, contentType := none, body := "This method is not allowed" }) ∧
    (∀ (assets : Assets) (rootResp bgResp : Resp) (p : String),
        p ≠ "/" → p ≠ "/bg-image.jpg" → p ≠ "/style.css" → p ≠ "/feather.min.js" →
        mainRoute assets rootResp bgResp "GET" p =
          { status := 404, contentType := none,
            body := "The page you requested could not be found" }) ∧
    (∀ (assets : Assets) (rootResp bgResp : Resp),
        mainRoute assets rootResp bgResp "GET" "/style.css" =
          { status := 200, contentType := some "text/css", body := assets.css }) := by
  refine ⟨?_, ?_, ?_⟩
  · intro assets rootResp bgResp m p hm
    simp [mainRoute, hm]
  · intro assets rootResp bgResp p h1 h2 h3 h4
    simp [mainRoute, h1, h2, h3, h4]
  · intro assets rootResp bgResp
    rfl

/-- Witness for C5 at concrete requests. -/
theorem c5_router_dispatch_witness :
    (("POST" : String) ≠ "GET" ∧
      mainRoute exAssets exRootResp exBgResp "POST" "/" =
        { status := 405, contentType := none, body := "This method is not allowed" }) ∧
    (("/does-not-exist" : String) ≠ "/" ∧
      mainRoute exAssets exRootResp exBgResp "GET" "/does-not-exist" =
        { status := 404, contentType := none,
          body := "The page you requested could not be found" }) ∧
    mainRoute exAssets exRootResp exBgResp "GET" "/style.css" =
      { status := 200, contentType := some "text/css", body := exAssets.css } :=
  ⟨⟨by decide,
    c5_router_dispatch.1 exAssets exRootResp exBgResp "POST" "/" (by decide)⟩,
   ⟨by decide,
    c5_router_dispatch.2.1 exAssets exRootResp exBgResp "/does-not-exist"
      (by decide) (by decide) (by decide) (by decide)⟩,
   c5_router_dispatch.2.2 exAssets exRootResp exBgResp⟩

/-- **C7.** The description placed in the context is the first current
weather condition's description with every double-quote character removed
and all other characters unchanged (a character filter). -/
theorem c7_description_quotes_stripped (h : Helpers) (r : APIResponse) (loc : Geo)
    (dt : LocalDate) (u : String) (ctx : TemplateContext) (w0 : WeatherReport)
    (hctx : generate_context h r loc dt u = some ctx)
    (hw : r.current.weather[0]? = some w0) :
    ctx.description.data = w0.description.data.filter (fun ch => ch != Char.ofNat 34) := by
  rw [generate_context_description h r loc dt u ctx w0 hctx hw]
  exact removeCharList_eq_filter (Char.ofNat 34) w0.description.data

/-- Witness for C7: the sample description `light rain"` renders as
`light rain`. -/
theorem c7_description_quotes_stripped_witness :
    (generate_context exHelpers exSnap exGeo exDate "metric" = some (exCtxOf "metric") ∧
      exSnap.current.weather[0]? =
        some { description := "light rain\"", icon := "10d" } ∧
      (exCtxOf "metric").description = "light rain") ∧
    (exCtxOf "metric").description.data =
      ("light rain\"" : String).data.filter (fun ch => ch != Char.ofNat 34) :=
  ⟨⟨by decide, by decide, by decide⟩,
   c7_description_quotes_stripped exHelpers exSnap exGeo exDate "metric"
     (exCtxOf "metric") { description := "light rain\"", icon := "10d" }
     (by decide) (by decide)⟩

/-- **C6 counterexample.** The claim says temperatures are rounded to the
nearest integer, so an input of 15.9 should render as `"16"`. The code
casts with `as i32`, which truncates: the sample payload has current
temperature 15.9 and the rendered string is `"15"`. -/
theorem c6_counterexample_truncation :
    exSnap.current.temp = (15.9 : ℚ) ∧
    Option.map TemplateContext.temp
      (generate_context exHelpers exSnap exGeo exDate "metric") = some "15" ∧
    ("15" : String) ≠ "16" :=
  ⟨by norm_num [exSnap, Rat.mkRat_eq_div], by decide, by decide⟩

/-- **C6 (amended).** The current and next-day temperatures are converted
with Rust's `as i32` cast — saturating truncation toward zero, not rounding
to nearest — before being placed as strings: for nonnegative in-range
values the cast is the floor (15.9 becomes "15"), any built context's
`temp` field is the string of the cast current temperature, and every
`next_days` entry's `temp` is the string of the cast day temperature of the
corresponding `daily[i + 1]` entry. -/
theorem c6_temperatures_truncated :
    (∀ q : ℚ, 0 ≤ q → q < 2 ^ 31 → f32_as_i32 q = ⌊q⌋) ∧
    (∀ (h : Helpers) (r : APIResponse) (loc : Geo) (dt : LocalDate) (u : String)
        (ctx : TemplateContext),
        generate_context h r loc dt u = some ctx →
        ctx.temp = toString (f32_as_i32 r.current.temp)) ∧
    (∀ (h : Helpers) (r : APIResponse) (loc : Geo) (dt : LocalDate) (u : String)
        (ctx : TemplateContext) (i : Nat) (nd : NextDay),
        generate_context h r loc dt u = some ctx →
        ctx.next_days[i]? = some nd →
        ∃ d, r.daily[i + 1]? = some d ∧
          nd.temp = toString (f32_as_i32 d.temp.day)) := by
  refine ⟨?_, ?_, ?_⟩
  · intro q h0 hlt
    have hnum : 0 ≤ q.num := Rat.num_nonneg.mpr h0
    have htd : ratTrunc q = ⌊q⌋ := by
      unfold ratTrunc
      rw [Int.tdiv_eq_ediv hnum (by positivity)]
      exact Rat.floor_def.symm
    have hcast : q < ((2 ^ 31 : ℤ) : ℚ) := by exact_mod_cast hlt
    have hfl : ⌊q⌋ < 2 ^ 31 := Int.floor_lt.mpr hcast
    have h0f : 0 ≤ ⌊q⌋ := Int.floor_nonneg.mpr h0
    have hpow : (2 : ℤ) ^ 31 = 2147483648 := by norm_num
    unfold f32_as_i32
    rw [htd, min_eq_right (by omega), max_eq_right (by omega)]
  · intro h r loc dt u ctx hctx
    exact generate_context_temp h r loc dt u ctx hctx
  · intro h r loc dt u ctx i nd hctx hnd
    obtain ⟨nds, m0, w0, hb, _, _, hc⟩ := generate_context_some_inv h r loc dt u ctx hctx
    subst hc
    simp only at hnd
    obtain ⟨n0, n1, n2, e0, e1, e2, hl⟩ := buildNextDays_some_inv h r.daily nds hb
    subst hl
    rcases i with _ | _ | _ | i
    · simp at hnd
      subst hnd
      obtain ⟨d, w, ws, hd, _, hn⟩ := nextDayAt_some_inv h r.daily 0 n0 e0
      exact ⟨d, hd, by rw [hn]⟩
    · simp at hnd
      subst hnd
      obtain ⟨d, w, ws, hd, _, hn⟩ := nextDayAt_some_inv h r.daily 1 n1 e1
      exact ⟨d, hd, by rw [hn]⟩
    · simp at hnd
      subst hnd
      obtain ⟨d, w, ws, hd, _, hn⟩ := nextDayAt_some_inv h r.daily 2 n2 e2
      exact ⟨d, hd, by rw [hn]⟩
    · simp at hnd

/-- Witness for C6 (amended) at the sample payload. -/
theorem c6_temperatures_truncated_witness :
    (0 ≤ (mkRat 159 10 : ℚ) ∧ (mkRat 159 10 : ℚ) < 2 ^ 31 ∧
      f32_as_i32 (mkRat 159 10) = ⌊(mkRat 159 10 : ℚ)⌋) ∧
    (generate_context exHelpers exSnap exGeo exDate "metric" = some (exCtxOf "metric") ∧
      (exCtxOf "metric").temp = toString (f32_as_i32 exSnap.current.temp)) ∧
    (∃ d, exSnap.daily[0 + 1]? = some d ∧
      ({ day := "2000", temp := "11", icon := "04d" } : NextDay).temp =
        toString (f32_as_i32 d.temp.day)) :=
  ⟨⟨by decide, by decide,
    c6_temperatures_truncated.1 (mkRat 159 10) (by decide) (by decide)⟩,
   ⟨by decide,
    c6_temperatures_truncated.2.1 exHelpers exSnap exGeo exDate "metric"
      (exCtxOf "metric") (by decide)⟩,
   c6_temperatures_truncated.2.2 exHelpers exSnap exGeo exDate "metric"
     (exCtxOf "metric") 0 { day := "2000", temp := "11", icon := "04d" }
     (by decide) (by decide)⟩

/-- **C8 counterexample.** The claim says the date field has no padding
before a single-digit day, rendering 3 June 2024 as exactly `"3 June 2024"`.
The code formats with chrono's `%e`, which space-pads the day to two digits:
the rendered string is `" 3 June 2024"`, with a leading space. -/
theorem c8_counterexample_padded_date :
    exDate.day = 3 ∧ exDate.month = 6 ∧ exDate.year = 2024 ∧
    Option.map TemplateContext.date
      (generate_context exHelpers exSnap exGeo exDate "metric") = some " 3 June 2024" ∧
    (" 3 June 2024" : String) ≠ "3 June 2024" :=
  ⟨rfl, rfl, rfl, by decide, by decide⟩

/-- **C8 (amended).** The context's date field is the local date formatted
as day-of-month (space-padded to 2 digits, chrono `%e`), full month name,
and zero-padded 4-digit year: a single-digit day carries one leading space
(3 June 2024 renders as `" 3 June 2024"`), a two-digit day has none. -/
theorem c8_date_format_space_padded :
    (∀ (h : Helpers) (r : APIResponse) (loc : Geo) (dt : LocalDate) (u : String)
        (ctx : TemplateContext),
        generate_context h r loc dt u = some ctx → ctx.date = formatDateEBY dt) ∧
    (∀ dt : LocalDate, dt.day < 10 →
        formatDateEBY dt =
          " " ++ toString dt.day ++ " " ++ monthName dt.month ++ " " ++ pad4zero dt.year) ∧
    (∀ dt : LocalDate, 10 ≤ dt.day →
        formatDateEBY dt =
          toString dt.day ++ " " ++ monthName dt.month ++ " " ++ pad4zero dt.year) := by
  refine ⟨?_, ?_, ?_⟩
  · intro h r loc dt u ctx hctx
    exact generate_context_date h r loc dt u ctx hctx
  · intro dt hd
    simp [formatDateEBY, pad2space, hd]
  · intro dt hd
    simp [formatDateEBY, pad2space, Nat.not_lt.mpr hd]

/-- Witness for C8 (amended): the sample date and a two-digit day. -/
theorem c8_date_format_space_padded_witness :
    (generate_context exHelpers exSnap exGeo exDate "metric" = some (exCtxOf "metric") ∧
      (exCtxOf "metric").date = formatDateEBY exDate) ∧
    (exDate.day < 10 ∧
      formatDateEBY exDate =
        " " ++ toString exDate.day ++ " " ++ monthName exDate.month ++ " "
          ++ pad4zero exDate.year) ∧
    (10 ≤ ({ year := 2024, month := 6, day := 15, weekday := "Sat" } : LocalDate).day ∧
      formatDateEBY { year := 2024, month := 6, day := 15, weekday := "Sat" } =
        toString ({ year := 2024, month := 6, day := 15, weekday := "Sat" } : LocalDate).day
          ++ " " ++ monthName 6 ++ " " ++ pad4zero 2024) :=
  ⟨⟨by decide,
    c8_date_format_space_padded.1 exHelpers exSnap exGeo exDate "metric"
      (exCtxOf "metric") (by decide)⟩,
   ⟨by decide, c8_date_format_space_padded.2.1 exDate (by decide)⟩,
   ⟨by decide,
    c8_date_format_space_padded.2.2 { year := 2024, month := 6, day := 15, weekday := "Sat" }
      (by decide)⟩⟩
